import Mathlib

/-!
Verification of the PRIMORDIA backend simulation core against its
natural-language specification.

The development shallowly embeds the Python sources:

* `backend/simulator/engine.py`  — `RegionSimulator` (regime scheduling,
  per-day satellite/news generation, divergence, series generation);
* `backend/simulator/config.py`  — `RegionConfig` table and `get_config`;
* `backend/main.py`              — `normalize_satellite_score`,
  `compute_divergence`, `generate_alerts`;
* `backend/services/analysis.py` — `SignalAnalyzer` normalizers / alerts;
* `backend/models/signals.py`    — `SatelliteSignal._normalize`,
  `DivergenceAnalyzer._generate_alerts`.

Python floats are modelled as exact rationals (`ℚ`), except for the
`tanh`-based normalizers which are modelled over `ℝ` with `Real.tanh`.
Python's PRNG (`random.Random(seed)`) is modelled by draw oracles: every
call site of `gauss` / `random` / `randint` / `choices` reads one value
from an oracle that is a deterministic function of the seed.  A `gauss(0,
sigma)` call is modelled as `sigma * z` where `z` is the oracle's draw for
that site.  Headline generation (`headlines.py`) produces text only and
feeds nothing back into the numeric model, so the headline list is elided
from the embedded `NewsRaw`.
-/

/-- Regime types, from `RegimeType` in `engine.py`. -/
inductive RegimeType where
  | HYPE_PUMP
  | SUPPLY_SHOCK
  | PANIC_SELL
  | REAL_GROWTH
  | MEAN_REVERSION
deriving DecidableEq

/-- An event regime affecting a time window (`Regime` in `engine.py`).
Day offsets and durations are Python ints; intensity is a float. -/
structure Regime where
  type : RegimeType
  start_day : ℤ
  duration : ℤ
  intensity : ℚ
deriving DecidableEq

/-- Embeds `Regime.is_active`: `self.start_day <= day < self.start_day + self.duration`. -/
def Regime.is_active (r : Regime) (day : ℤ) : Bool :=
  decide (r.start_day ≤ day ∧ day < r.start_day + r.duration)

/-- Embeds `Regime.progress`: 0 outside the regime, else `(day - start_day) / duration`
(Python int division of two ints appearing in a float context, i.e. exact). -/
def Regime.progress (r : Regime) (day : ℤ) : ℚ :=
  if r.is_active day then ((day : ℚ) - (r.start_day : ℚ)) / (r.duration : ℚ) else 0

/-- Region configuration (`RegionConfig` in `config.py`).  The
`regime_weights` dict keyed by the five regime-type strings is modelled as
a total function on `RegimeType`. -/
structure RegionConfig where
  region_id : String
  name : String
  proxy_type : String
  sat_baseline : ℚ
  sat_volatility : ℚ
  sat_weekend_effect : ℚ
  sat_trend_persistence : ℚ
  news_volume_baseline : ℤ
  news_sentiment_bias : ℚ
  news_hype_tendency : ℚ
  news_diversity_baseline : ℚ
  regime_weights : RegimeType → ℚ

/-- The `"shanghai"` entry of `REGION_CONFIGS` in `config.py`. -/
def shanghai_config : RegionConfig where
  region_id := "shanghai"
  name := "Shanghai, China"
  proxy_type := "ports"
  sat_baseline := 0.1
  sat_volatility := 0.08
  sat_weekend_effect := 0.7
  sat_trend_persistence := 0.6
  news_volume_baseline := 120
  news_sentiment_bias := 0.05
  news_hype_tendency := 0.7
  news_diversity_baseline := 0.4
  regime_weights := fun t => match t with
    | .HYPE_PUMP => 0.35
    | .SUPPLY_SHOCK => 0.20
    | .PANIC_SELL => 0.15
    | .REAL_GROWTH => 0.20
    | .MEAN_REVERSION => 0.10

/-- The `"shenzhen"` entry of `REGION_CONFIGS` in `config.py`. -/
def shenzhen_config : RegionConfig where
  region_id := "shenzhen"
  name := "Shenzhen, China"
  proxy_type := "manufacturing"
  sat_baseline := 0.15
  sat_volatility := 0.10
  sat_weekend_effect := 0.6
  sat_trend_persistence := 0.7
  news_volume_baseline := 90
  news_sentiment_bias := -0.05
  news_hype_tendency := 0.5
  news_diversity_baseline := 0.45
  regime_weights := fun t => match t with
    | .HYPE_PUMP => 0.20
    | .SUPPLY_SHOCK => 0.25
    | .PANIC_SELL => 0.25
    | .REAL_GROWTH => 0.20
    | .MEAN_REVERSION => 0.10

/-- The `"suez"` entry of `REGION_CONFIGS` in `config.py`. -/
def suez_config : RegionConfig where
  region_id := "suez"
  name := "Suez Canal Zone"
  proxy_type := "ports"
  sat_baseline := -0.1
  sat_volatility := 0.15
  sat_weekend_effect := 0.9
  sat_trend_persistence := 0.8
  news_volume_baseline := 150
  news_sentiment_bias := -0.15
  news_hype_tendency := 0.6
  news_diversity_baseline := 0.7
  regime_weights := fun t => match t with
    | .HYPE_PUMP => 0.05
    | .SUPPLY_SHOCK => 0.45
    | .PANIC_SELL => 0.25
    | .REAL_GROWTH => 0.10
    | .MEAN_REVERSION => 0.15

/-- The `"la_port"` entry of `REGION_CONFIGS` in `config.py`. -/
def la_port_config : RegionConfig where
  region_id := "la_port"
  name := "Port of Los Angeles"
  proxy_type := "ports"
  sat_baseline := 0.05
  sat_volatility := 0.06
  sat_weekend_effect := 0.75
  sat_trend_persistence := 0.5
  news_volume_baseline := 80
  news_sentiment_bias := 0.10
  news_hype_tendency := 0.3
  news_diversity_baseline := 0.8
  regime_weights := fun t => match t with
    | .HYPE_PUMP => 0.15
    | .SUPPLY_SHOCK => 0.20
    | .PANIC_SELL => 0.15
    | .REAL_GROWTH => 0.35
    | .MEAN_REVERSION => 0.15

/-- The `"rotterdam"` entry of `REGION_CONFIGS` in `config.py`. -/
def rotterdam_config : RegionConfig where
  region_id := "rotterdam"
  name := "Rotterdam, Netherlands"
  proxy_type := "oil_storage"
  sat_baseline := 0.0
  sat_volatility := 0.07
  sat_weekend_effect := 0.8
  sat_trend_persistence := 0.55
  news_volume_baseline := 70
  news_sentiment_bias := 0.08
  news_hype_tendency := 0.25
  news_diversity_baseline := 0.85
  regime_weights := fun t => match t with
    | .HYPE_PUMP => 0.20
    | .SUPPLY_SHOCK => 0.15
    | .PANIC_SELL => 0.10
    | .REAL_GROWTH => 0.40
    | .MEAN_REVERSION => 0.15

/-- The `REGION_CONFIGS` dict of `config.py`, as an association list (its
keys are distinct, so lookup agrees with the Python dict). -/
def REGION_CONFIGS : List (String × RegionConfig) :=
  [("shanghai", shanghai_config),
   ("shenzhen", shenzhen_config),
   ("suez", suez_config),
   ("la_port", la_port_config),
   ("rotterdam", rotterdam_config)]

/-- Embeds `get_config` in `config.py`:
`REGION_CONFIGS.get(region_id, REGION_CONFIGS["shanghai"])`. -/
def get_config (region_id : String) : RegionConfig :=
  (REGION_CONFIGS.lookup region_id).getD shanghai_config

/-- Embeds `RegionSimulator._compute_divergence` in `engine.py`. -/
def compute_divergence_sim (sat_score news_score sat_confidence news_confidence
    hype_intensity : ℚ) : ℚ :=
  let raw_gap := |sat_score - news_score| / 2
  let avg_confidence := (sat_confidence + news_confidence) / 2
  let hype_amplifier := 1 + hype_intensity / 100 * 0.5
  min 100 (raw_gap * avg_confidence * hype_amplifier * 100)

/-- Embeds `compute_divergence` in `main.py` (the market-aware variant; the
`market_score` argument is `Optional` — the code tests `is not None`). -/
def compute_divergence_api (sat_score news_score : ℚ) (market_score : Option ℚ)
    (sat_conf news_conf hype : ℚ) : ℚ :=
  let sat_news_gap := |sat_score - news_score|
  let market_factor : ℚ :=
    match market_score with
    | none => 1
    | some m =>
      let sat_market_gap := |sat_score - m|
      let news_market_gap := |news_score - m|
      if sat_market_gap < news_market_gap then 1.2
      else if news_market_gap < sat_market_gap then 1.1
      else 1
  let combined_conf := (sat_conf + news_conf) / 2
  let conf_weight := 0.3 + 0.7 * combined_conf
  let hype_amp := 1 + hype / 100 * 0.5
  max 0 (min 100 (sat_news_gap * conf_weight * hype_amp * market_factor * 50))

/-- C3: whenever the physical score equals the narrative score the computed
divergence is exactly 0, for every score value, every pair of confidences,
every hype intensity, and (in the market-aware `main.py` variant) every
optional market score. -/
theorem zero_gap_zero_divergence :
    (∀ x c₁ c₂ h : ℚ, compute_divergence_sim x x c₁ c₂ h = 0) ∧
    (∀ (x : ℚ) (m : Option ℚ) (c₁ c₂ h : ℚ),
      compute_divergence_api x x m c₁ c₂ h = 0) := by
  constructor
  · intro x c₁ c₂ h
    simp [compute_divergence_sim]
  · intro x m c₁ c₂ h
    simp [compute_divergence_api]

/-- C4 counterexample: in the market-aware variant of `main.py`, with the
confidences, the hype and the market score held fixed, a pair with the
SMALLER channel gap can score a STRICTLY HIGHER divergence, because the
`market_factor` depends on the two scores individually and not only on
their gap.  Here `|0 - 0.2| = 0.2 ≤ 0.22 = |0.11 - (-0.11)|` yet the first
divergence is 12 and the second is 11. -/
theorem gap_monotonicity_market_counterexample :
    |(0 : ℚ) - 0.2| ≤ |(0.11 : ℚ) - (-0.11)| ∧
    ¬ compute_divergence_api 0 0.2 (some 0) 1 1 0 ≤
        compute_divergence_api 0.11 (-0.11) (some 0) 1 1 0 := by
  constructor
  · exact abs_le_abs (by norm_num) (by norm_num)
  · norm_num [compute_divergence_api, abs_of_nonneg, abs_of_nonpos]

/-- C4 (amended): holding the confidences and the hype fixed, the
divergence is non-decreasing in the gap `|sat - news|` for the simulator's
`_compute_divergence` and for the `main.py` variant when no market score is
supplied (nonnegative confidences and hype, the domains the code feeds
them from).  With a market score supplied the property fails, see the
counterexample. -/
theorem gap_monotonicity :
    (∀ s₁ n₁ s₂ n₂ c₁ c₂ h : ℚ, 0 ≤ c₁ → 0 ≤ c₂ → 0 ≤ h →
      |s₁ - n₁| ≤ |s₂ - n₂| →
      compute_divergence_sim s₁ n₁ c₁ c₂ h ≤ compute_divergence_sim s₂ n₂ c₁ c₂ h) ∧
    (∀ s₁ n₁ s₂ n₂ c₁ c₂ h : ℚ, 0 ≤ c₁ → 0 ≤ c₂ → 0 ≤ h →
      |s₁ - n₁| ≤ |s₂ - n₂| →
      compute_divergence_api s₁ n₁ none c₁ c₂ h ≤
        compute_divergence_api s₂ n₂ none c₁ c₂ h) := by
  constructor
  · intro s₁ n₁ s₂ n₂ c₁ c₂ h hc₁ hc₂ hh hg
    simp only [compute_divergence_sim]
    have hA : (0:ℚ) ≤ (c₁ + c₂) / 2 := by linarith
    have hB : (0:ℚ) ≤ 1 + h / 100 * 0.5 := by linarith
    have h1 : |s₁ - n₁| / 2 ≤ |s₂ - n₂| / 2 := by linarith
    have h2 := mul_le_mul_of_nonneg_right h1 hA
    have h3 := mul_le_mul_of_nonneg_right h2 hB
    have h4 := mul_le_mul_of_nonneg_right h3 (by norm_num : (0:ℚ) ≤ 100)
    exact min_le_min (le_refl _) h4
  · intro s₁ n₁ s₂ n₂ c₁ c₂ h hc₁ hc₂ hh hg
    simp only [compute_divergence_api]
    have hA : (0:ℚ) ≤ 0.3 + 0.7 * ((c₁ + c₂) / 2) := by linarith
    have hB : (0:ℚ) ≤ 1 + h / 100 * 0.5 := by linarith
    have h2 := mul_le_mul_of_nonneg_right hg hA
    have h3 := mul_le_mul_of_nonneg_right h2 hB
    have h4 := mul_le_mul_of_nonneg_right h3 (by norm_num : (0:ℚ) ≤ 1)
    have h5 := mul_le_mul_of_nonneg_right h4 (by norm_num : (0:ℚ) ≤ 50)
    exact max_le_max (le_refl _) (min_le_min (le_refl _) h5)

/-- C4 witness: the amended monotonicity theorem applied at a concrete
input with every hypothesis discharged. -/
theorem gap_monotonicity_witness :
    (0:ℚ) ≤ 1 ∧ (0:ℚ) ≤ 0 ∧ |(0:ℚ) - 0| ≤ |(1:ℚ) - 0| ∧
    compute_divergence_sim 0 0 1 1 0 ≤ compute_divergence_sim 1 0 1 1 0 :=
  ⟨by norm_num, le_refl 0, by simp,
    gap_monotonicity.1 0 0 1 0 1 1 0 (by norm_num) (by norm_num) (le_refl 0)
      (by simp)⟩

/-- Draw oracle for `RegionSimulator._generate_regimes`.  Each field models
one `self.rng` call site: `n_regimes_u` the `random()` deciding the regime
count, `type_draw i` the result of `choices(types, probs)` for regime `i`
(the dict gives every type positive weight in every shipped config, so any
type can be drawn), `dur_draw i` the `randint` duration draw, `start_draw
i a` the `randint` start draw at retry attempt `a`, and `intensity_u i`
the `random()` feeding the intensity.  In the Python code all of these
come deterministically from the PRNG seeded in `__init__`. -/
structure RegimeDraws where
  n_regimes_u : ℚ
  type_draw : ℕ → RegimeType
  dur_draw : ℕ → ℤ
  start_draw : ℕ → ℕ → ℤ
  intensity_u : ℕ → ℚ

/-- The day-offset set `set(range(start, start + duration))` of a regime. -/
def regime_days (start duration : ℤ) : Finset ℤ :=
  Finset.Ico start (start + duration)

/-- The `randint` bounds for the duration draw: `(7, 12)` for
`SUPPLY_SHOCK`, `(6, 10)` for `MEAN_REVERSION`, `(5, 9)` otherwise. -/
def duration_bounds (t : RegimeType) : ℤ × ℤ :=
  match t with
  | .SUPPLY_SHOCK => (7, 12)
  | .MEAN_REVERSION => (6, 10)
  | _ => (5, 9)

/-- The `while attempts < 20` retry loop of `_generate_regimes`: draw a
start, accept it if its day range does not meet `used_days`, else retry;
after 20 failed attempts the `for`-`else` branch drops the regime
(`none`). -/
def find_start_from (dr : RegimeDraws) (i : ℕ) (duration : ℤ)
    (used : Finset ℤ) : ℕ → ℕ → Option ℤ
  | _, 0 => none
  | attempt, fuel + 1 =>
    let start := dr.start_draw i attempt
    if regime_days start duration ∩ used = ∅ then some start
    else find_start_from dr i duration used (attempt + 1) fuel

/-- Entry point of the retry loop: `attempts = 0`, bound 20. -/
def find_start (dr : RegimeDraws) (i : ℕ) (duration : ℤ)
    (used : Finset ℤ) : Option ℤ :=
  find_start_from dr i duration used 0 20

/-- One iteration of the `for i in range(n_regimes)` body of
`_generate_regimes`: draw type and duration, search for a non-overlapping
start; on success mark the days used and append the regime (intensity
`0.5 + random() * 0.5`), on failure keep the accumulator (`continue`). -/
def place_step (dr : RegimeDraws) (acc : Finset ℤ × List Regime)
    (i : ℕ) : Finset ℤ × List Regime :=
  let used := acc.1
  let regimes := acc.2
  let regime_type := dr.type_draw i
  let duration := dr.dur_draw i
  match find_start dr i duration used with
  | none => (used, regimes)
  | some start =>
    let intensity := 0.5 + dr.intensity_u i * 0.5
    (used ∪ regime_days start duration,
     regimes ++ [⟨regime_type, start, duration, intensity⟩])

/-- Embeds `n_regimes = 1 if self.rng.random() < 0.6 else 2`. -/
def n_regimes (dr : RegimeDraws) : ℕ :=
  if dr.n_regimes_u < 0.6 then 1 else 2

/-- Embeds `RegionSimulator._generate_regimes` in `engine.py`: place 1–2 regimes,
then `sorted(regimes, key=lambda r: r.start_day)` (a stable sort). -/
def generate_regimes (dr : RegimeDraws) : List Regime :=
  (((List.range (n_regimes dr)).foldl (place_step dr) (∅, [])).2).mergeSort
    (fun r s => decide (r.start_day ≤ s.start_day))

/-- Two regimes share no day offset: no day is active in both. -/
def no_shared_day (r s : Regime) : Prop :=
  ∀ d : ℤ, ¬(r.is_active d = true ∧ s.is_active d = true)

theorem no_shared_day_symm : Symmetric no_shared_day := by
  intro r s h d hd
  exact h d ⟨hd.2, hd.1⟩

theorem is_active_iff_mem_days (r : Regime) (d : ℤ) :
    r.is_active d = true ↔ d ∈ regime_days r.start_day r.duration := by
  simp [Regime.is_active, regime_days, Finset.mem_Ico]

theorem find_start_from_disjoint (dr : RegimeDraws) (i : ℕ) (duration : ℤ)
    (used : Finset ℤ) :
    ∀ attempt fuel start,
      find_start_from dr i duration used attempt fuel = some start →
      regime_days start duration ∩ used = ∅ := by
  intro attempt fuel
  induction fuel generalizing attempt with
  | zero => intro start h; simp [find_start_from] at h
  | succ f ih =>
    intro start h
    simp only [find_start_from] at h
    split at h
    · cases h
      assumption
    · exact ih (attempt + 1) start h

theorem find_start_from_is_draw (dr : RegimeDraws) (i : ℕ) (duration : ℤ)
    (used : Finset ℤ) :
    ∀ attempt fuel start,
      find_start_from dr i duration used attempt fuel = some start →
      ∃ a, start = dr.start_draw i a := by
  intro attempt fuel
  induction fuel generalizing attempt with
  | zero => intro start h; simp [find_start_from] at h
  | succ f ih =>
    intro start h
    simp only [find_start_from] at h
    split at h
    · cases h
      exact ⟨attempt, rfl⟩
    · exact ih (attempt + 1) start h

theorem place_foldl_invariant (dr : RegimeDraws) :
    ∀ (l : List ℕ) (used : Finset ℤ) (regimes : List Regime),
      (∀ r ∈ regimes, regime_days r.start_day r.duration ⊆ used) →
      regimes.Pairwise no_shared_day →
      (∀ r ∈ (l.foldl (place_step dr) (used, regimes)).2,
          regime_days r.start_day r.duration ⊆
            (l.foldl (place_step dr) (used, regimes)).1) ∧
      ((l.foldl (place_step dr) (used, regimes)).2).Pairwise no_shared_day := by
  intro l
  induction l with
  | nil => intro used regimes hsub hpw; exact ⟨hsub, hpw⟩
  | cons i l ih =>
    intro used regimes hsub hpw
    rw [List.foldl_cons]
    rcases hfs : find_start dr i (dr.dur_draw i) used with _ | start
    · have hstep : place_step dr (used, regimes) i = (used, regimes) := by
        simp [place_step, hfs]
      rw [hstep]
      exact ih used regimes hsub hpw
    · have hstep : place_step dr (used, regimes) i =
          (used ∪ regime_days start (dr.dur_draw i),
           regimes ++ [⟨dr.type_draw i, start, dr.dur_draw i,
             0.5 + dr.intensity_u i * 0.5⟩]) := by
        simp [place_step, hfs]
      rw [hstep]
      have hdisj : regime_days start (dr.dur_draw i) ∩ used = ∅ :=
        find_start_from_disjoint dr i (dr.dur_draw i) used 0 20 start hfs
      apply ih
      · intro r hr
        rcases List.mem_append.mp hr with hr | hr
        · exact (hsub r hr).trans Finset.subset_union_left
        · rcases List.mem_singleton.mp hr with rfl
          exact Finset.subset_union_right
      · rw [List.pairwise_append]
        refine ⟨hpw, List.pairwise_singleton _ _, ?_⟩
        intro r hr s hs
        rcases List.mem_singleton.mp hs with rfl
        intro d hd
        have hdr : d ∈ regime_days r.start_day r.duration :=
          (is_active_iff_mem_days r d).mp hd.1
        have hds : d ∈ regime_days start (dr.dur_draw i) :=
          (is_active_iff_mem_days _ d).mp hd.2
        have : d ∈ regime_days start (dr.dur_draw i) ∩ used :=
          Finset.mem_inter.mpr ⟨hds, hsub r hr hdr⟩
        rw [hdisj] at this
        exact Finset.not_mem_empty d this

/-- C6: in every schedule produced by `_generate_regimes`, whatever the
PRNG draws, no two regimes share a day offset: no day is active in two
distinct positions of the returned (sorted) list. -/
theorem regimes_non_overlap (dr : RegimeDraws) :
    (generate_regimes dr).Pairwise no_shared_day := by
  have hperm :=
    List.mergeSort_perm
      (((List.range (n_regimes dr)).foldl (place_step dr) (∅, [])).2)
      (fun r s : Regime => decide (r.start_day ≤ s.start_day))
  have hbase :=
    (place_foldl_invariant dr (List.range (n_regimes dr)) ∅ []
      (by intro r hr; cases hr) List.Pairwise.nil).2
  exact (hperm.pairwise_iff (fun hxy => no_shared_day_symm hxy)).mpr hbase

/-- Validity of the regime draw oracle: each draw lies in the range of the
`randint` call that produces it in `_generate_regimes` — durations within
the type-dependent bounds, starts in `[5, 20]` for the first regime
(`i == 0`) and in `[18, 30 - duration]` for any later regime. -/
def valid_draws (dr : RegimeDraws) : Prop :=
  (∀ i, (duration_bounds (dr.type_draw i)).1 ≤ dr.dur_draw i ∧
      dr.dur_draw i ≤ (duration_bounds (dr.type_draw i)).2) ∧
  (∀ a, 5 ≤ dr.start_draw 0 a ∧ dr.start_draw 0 a ≤ 20) ∧
  (∀ i a, 1 ≤ i → 18 ≤ dr.start_draw i a ∧
      dr.start_draw i a ≤ 30 - dr.dur_draw i)

theorem duration_bounds_le (t : RegimeType) :
    5 ≤ (duration_bounds t).1 ∧ (duration_bounds t).2 ≤ 12 := by
  cases t <;> simp [duration_bounds]

theorem place_foldl_window (dr : RegimeDraws) (hv : valid_draws dr) :
    ∀ (l : List ℕ) (used : Finset ℤ) (regimes : List Regime),
      (∀ r ∈ regimes, 0 ≤ r.start_day ∧ r.start_day + r.duration ≤ 32) →
      ∀ r ∈ (l.foldl (place_step dr) (used, regimes)).2,
        0 ≤ r.start_day ∧ r.start_day + r.duration ≤ 32 := by
  intro l
  induction l with
  | nil => intro used regimes h; exact h
  | cons i l ih =>
    intro used regimes h
    rw [List.foldl_cons]
    rcases hfs : find_start dr i (dr.dur_draw i) used with _ | start
    · have hstep : place_step dr (used, regimes) i = (used, regimes) := by
        simp [place_step, hfs]
      rw [hstep]
      exact ih used regimes h
    · have hstep : place_step dr (used, regimes) i =
          (used ∪ regime_days start (dr.dur_draw i),
           regimes ++ [⟨dr.type_draw i, start, dr.dur_draw i,
             0.5 + dr.intensity_u i * 0.5⟩]) := by
        simp [place_step, hfs]
      rw [hstep]
      apply ih
      intro r hr
      rcases List.mem_append.mp hr with hr | hr
      · exact h r hr
      · rcases List.mem_singleton.mp hr with rfl
        obtain ⟨a, rfl⟩ :=
          find_start_from_is_draw dr i (dr.dur_draw i) used 0 20 start hfs
        have hdur₁ := (hv.1 i).1
        have hdur₂ := (hv.1 i).2
        have hd := duration_bounds_le (dr.type_draw i)
        rcases Nat.eq_zero_or_pos i with rfl | hi
        · have hs := hv.2.1 a
          constructor
          · simp only []
            omega
          · simp only []
            omega
        · have hs := hv.2.2 i a hi
          constructor
          · simp only []
            omega
          · simp only []
            omega

/-- Regimes in placement order: the list built by the `for i in
range(n_regimes)` loop of `_generate_regimes`, before the final sort.
The `i = 0` iteration always places its regime (the `used_days` set is
still empty, so the very first start draw is accepted), so the head of
this list is the first regime and its tail is exactly the second-placed
regime, when one exists. -/
def placed_regimes (dr : RegimeDraws) : List Regime :=
  ((List.range (n_regimes dr)).foldl (place_step dr) (∅, [])).2

theorem generate_regimes_eq_sorted_placed (dr : RegimeDraws) :
    generate_regimes dr =
      (placed_regimes dr).mergeSort
        (fun r s => decide (r.start_day ≤ s.start_day)) := rfl

theorem place_foldl_append (dr : RegimeDraws) :
    ∀ (l : List ℕ) (acc : Finset ℤ × List Regime),
      ∃ suffix : List Regime,
        (l.foldl (place_step dr) acc).2 = acc.2 ++ suffix ∧
        ∀ r ∈ suffix, ∃ i ∈ l, ∃ a : ℕ,
          r.start_day = dr.start_draw i a ∧ r.duration = dr.dur_draw i := by
  intro l
  induction l with
  | nil => intro acc; exact ⟨[], by simp, by simp⟩
  | cons i l ih =>
    intro acc
    rw [List.foldl_cons]
    rcases hfs : find_start dr i (dr.dur_draw i) acc.1 with _ | start
    · have hstep : place_step dr acc i = (acc.1, acc.2) := by
        simp [place_step, hfs]
      rw [hstep]
      obtain ⟨suffix, heq, hsrc⟩ := ih (acc.1, acc.2)
      refine ⟨suffix, heq, fun r hr => ?_⟩
      obtain ⟨j, hj, a, ha⟩ := hsrc r hr
      exact ⟨j, List.mem_cons_of_mem i hj, a, ha⟩
    · have hstep : place_step dr acc i =
          (acc.1 ∪ regime_days start (dr.dur_draw i),
           acc.2 ++ [⟨dr.type_draw i, start, dr.dur_draw i,
             0.5 + dr.intensity_u i * 0.5⟩]) := by
        simp [place_step, hfs]
      rw [hstep]
      obtain ⟨suffix, heq, hsrc⟩ :=
        ih (acc.1 ∪ regime_days start (dr.dur_draw i),
          acc.2 ++ [⟨dr.type_draw i, start, dr.dur_draw i,
            0.5 + dr.intensity_u i * 0.5⟩])
      refine ⟨⟨dr.type_draw i, start, dr.dur_draw i,
          0.5 + dr.intensity_u i * 0.5⟩ :: suffix, ?_, ?_⟩
      · rw [heq]
        simp
      · intro r hr
        rcases List.mem_cons.mp hr with rfl | hr
        · obtain ⟨a, ha⟩ :=
            find_start_from_is_draw dr i (dr.dur_draw i) acc.1 0 20 start hfs
          exact ⟨i, List.mem_cons_self i l, a, by rw [ha], rfl⟩
        · obtain ⟨j, hj, a, ha⟩ := hsrc r hr
          exact ⟨j, List.mem_cons_of_mem i hj, a, ha⟩

theorem range_n_regimes (dr : RegimeDraws) :
    ∃ rest : List ℕ, List.range (n_regimes dr) = 0 :: rest ∧
      ∀ i ∈ rest, i = 1 := by
  by_cases hn : dr.n_regimes_u < 0.6
  · refine ⟨[], ?_, by simp⟩
    rw [show n_regimes dr = 1 from by simp [n_regimes, hn]]
    rfl
  · refine ⟨[1], ?_, by simp⟩
    rw [show n_regimes dr = 2 from by simp [n_regimes, hn]]
    rfl

theorem place_step_snd_length (dr : RegimeDraws) (acc : Finset ℤ × List Regime)
    (i : ℕ) : (place_step dr acc i).2.length ≤ acc.2.length + 1 := by
  rcases hfs : find_start dr i (dr.dur_draw i) acc.1 with _ | start <;>
    simp [place_step, hfs]

/-- C7 (amended): with every draw in its `randint` range, every generated
regime satisfies `0 ≤ start_day` and `start_day + duration ≤ 32`, and
every second-placed regime (the tail of the placement list) satisfies
`start_day + duration ≤ 30` — its start is capped at `30 - duration`.
Only the first regime can break the 30-day window: its start is drawn
from `[5, 20]` with a duration of up to 12 days, so it can extend to day
offset 31 and the claimed bound `start_day + duration ≤ 30` fails (see
the counterexample). -/
theorem regimes_window_bound (dr : RegimeDraws) (hv : valid_draws dr) :
    (∀ r ∈ generate_regimes dr,
      0 ≤ r.start_day ∧ r.start_day + r.duration ≤ 32) ∧
    ∀ r ∈ (placed_regimes dr).tail, r.start_day + r.duration ≤ 30 := by
  constructor
  · intro r hr
    have hperm :=
      List.mergeSort_perm
        (((List.range (n_regimes dr)).foldl (place_step dr) (∅, [])).2)
        (fun r s : Regime => decide (r.start_day ≤ s.start_day))
    have hr' : r ∈ ((List.range (n_regimes dr)).foldl (place_step dr) (∅, [])).2 :=
      hperm.mem_iff.mp hr
    exact place_foldl_window dr hv (List.range (n_regimes dr)) ∅ []
      (by intro r hr; cases hr) r hr'
  · intro r hr
    obtain ⟨rest, hre, hone⟩ := range_n_regimes dr
    rw [placed_regimes, hre, List.foldl_cons] at hr
    obtain ⟨suffix, heq, hsrc⟩ :=
      place_foldl_append dr rest (place_step dr (∅, []) 0)
    rw [heq] at hr
    have hlen : (place_step dr (∅, []) 0).2.length ≤ 1 := by
      have := place_step_snd_length dr (∅, []) 0
      simpa using this
    have hr' : r ∈ suffix := by
      rcases hl : (place_step dr (∅, []) 0).2 with _ | ⟨a, tl⟩
      · rw [hl] at hr
        simp only [List.nil_append] at hr
        exact (List.tail_sublist suffix).subset hr
      · rcases tl with _ | ⟨b, tl2⟩
        · rw [hl] at hr
          simpa using hr
        · rw [hl] at hlen
          simp at hlen
    obtain ⟨i, hi, a, ha1, ha2⟩ := hsrc r hr'
    have hi1 : i = 1 := hone i hi
    subst hi1
    have hs := hv.2.2 1 a (le_refl 1)
    rw [ha1, ha2]
    omega

/-- A concrete, fully reachable draw oracle: one regime (`random() = 0 <
0.6`), type `SUPPLY_SHOCK` (positive weight in every shipped config),
duration draw 12 (inside `randint(7, 12)`), start draw 20 (inside
`randint(5, 20)` for the first regime). -/
def overrun_draws : RegimeDraws where
  n_regimes_u := 0
  type_draw := fun _ => .SUPPLY_SHOCK
  dur_draw := fun _ => 12
  start_draw := fun i _ => if i = 0 then 20 else 18
  intensity_u := fun _ => 0

theorem overrun_draws_valid : valid_draws overrun_draws := by
  refine ⟨fun i => ?_, fun a => ?_, fun i a hi => ?_⟩
  · simp [overrun_draws, duration_bounds]
  · simp [overrun_draws]
  · have : i ≠ 0 := by omega
    simp [overrun_draws, this]

theorem overrun_foldl_eq :
    ((List.range (n_regimes overrun_draws)).foldl
      (place_step overrun_draws) (∅, [])).2 =
    [⟨.SUPPLY_SHOCK, 20, 12, 0.5⟩] := by
  have h1 : n_regimes overrun_draws = 1 := by
    norm_num [n_regimes, overrun_draws]
  have hr : List.range 1 = [0] := rfl
  rw [h1, hr, List.foldl_cons, List.foldl_nil]
  have h2 : find_start overrun_draws 0 (overrun_draws.dur_draw 0) ∅ = some 20 := by
    simp [find_start, find_start_from, overrun_draws, Finset.inter_empty]
  simp only [place_step]
  rw [h2]
  norm_num [overrun_draws]

theorem overrun_member :
    (⟨.SUPPLY_SHOCK, 20, 12, 0.5⟩ : Regime) ∈ generate_regimes overrun_draws := by
  unfold generate_regimes
  have hperm :=
    List.mergeSort_perm
      (((List.range (n_regimes overrun_draws)).foldl
        (place_step overrun_draws) (∅, [])).2)
      (fun r s : Regime => decide (r.start_day ≤ s.start_day))
  rw [hperm.mem_iff, overrun_foldl_eq]
  exact List.mem_singleton.mpr rfl

/-- C7 counterexample: with the reachable draws of `overrun_draws` (one
`SUPPLY_SHOCK` regime, duration draw 12 from `randint(7, 12)`, start draw
20 from `randint(5, 20)`), `_generate_regimes` returns a regime occupying
days 20–31, so `start_day + duration = 32 > 30`: the regime does not lie
within the 30-day simulation window. -/
theorem regimes_window_counterexample :
    valid_draws overrun_draws ∧
    ∃ r ∈ generate_regimes overrun_draws,
      ¬(0 ≤ r.start_day ∧ r.start_day + r.duration ≤ 30) := by
  refine ⟨overrun_draws_valid, ⟨.SUPPLY_SHOCK, 20, 12, 0.5⟩, overrun_member, ?_⟩
  decide

/-- A concrete, fully reachable two-regime draw oracle: `random() = 0.6`
is not `< 0.6`, so two regimes are drawn; both `SUPPLY_SHOCK` with
duration 12 (inside `randint(7, 12)`); the first start draw is 5 (inside
`randint(5, 20)`), the second 18 (inside `randint(18, 30 - 12)`). -/
def two_regime_draws : RegimeDraws where
  n_regimes_u := 0.6
  type_draw := fun _ => .SUPPLY_SHOCK
  dur_draw := fun _ => 12
  start_draw := fun i _ => if i = 0 then 5 else 18
  intensity_u := fun _ => 0

theorem two_regime_draws_valid : valid_draws two_regime_draws := by
  refine ⟨fun i => ?_, fun a => ?_, fun i a hi => ?_⟩
  · simp [two_regime_draws, duration_bounds]
  · simp [two_regime_draws]
  · have : i ≠ 0 := by omega
    simp [two_regime_draws, this]

theorem two_regime_placed_eq :
    placed_regimes two_regime_draws =
      [⟨.SUPPLY_SHOCK, 5, 12, 0.5⟩, ⟨.SUPPLY_SHOCK, 18, 12, 0.5⟩] := by
  have h1 : n_regimes two_regime_draws = 2 := by
    norm_num [n_regimes, two_regime_draws]
  have hr : List.range 2 = [0, 1] := rfl
  rw [placed_regimes, h1, hr, List.foldl_cons]
  have h2 : find_start two_regime_draws 0 (two_regime_draws.dur_draw 0) ∅ =
      some 5 := by
    simp [find_start, find_start_from, two_regime_draws, Finset.inter_empty]
  have e0 : place_step two_regime_draws (∅, []) 0 =
      (regime_days 5 12, [⟨.SUPPLY_SHOCK, 5, 12, 0.5⟩]) := by
    simp only [place_step]
    rw [h2]
    norm_num [two_regime_draws]
  rw [e0, List.foldl_cons, List.foldl_nil]
  have hic : regime_days 18 12 ∩ regime_days 5 12 = ∅ := by
    rw [regime_days, regime_days, Finset.Ico_inter_Ico]
    norm_num
  have h3 : find_start two_regime_draws 1 (two_regime_draws.dur_draw 1)
      (regime_days 5 12) = some 18 := by
    simp [find_start, find_start_from, two_regime_draws, hic]
  simp only [place_step]
  rw [h3]
  norm_num [two_regime_draws]

theorem two_regime_tail_member :
    (⟨.SUPPLY_SHOCK, 18, 12, 0.5⟩ : Regime) ∈
      (placed_regimes two_regime_draws).tail := by
  rw [two_regime_placed_eq]
  simp

/-- C7 witness: the amended window bound applied at concrete inputs with
every hypothesis discharged — the uniform conjunct at the regime
generated from `overrun_draws`, and the second-regime conjunct at the
second regime placed from `two_regime_draws`. -/
theorem regimes_window_bound_witness :
    (0 ≤ (⟨.SUPPLY_SHOCK, 20, 12, 0.5⟩ : Regime).start_day ∧
      (⟨.SUPPLY_SHOCK, 20, 12, 0.5⟩ : Regime).start_day +
        (⟨.SUPPLY_SHOCK, 20, 12, 0.5⟩ : Regime).duration ≤ 32) ∧
    (⟨.SUPPLY_SHOCK, 18, 12, 0.5⟩ : Regime).start_day +
      (⟨.SUPPLY_SHOCK, 18, 12, 0.5⟩ : Regime).duration ≤ 30 :=
  ⟨(regimes_window_bound overrun_draws overrun_draws_valid).1 _ overrun_member,
   (regimes_window_bound two_regime_draws two_regime_draws_valid).2 _
     two_regime_tail_member⟩

theorem tanh_strictMono : StrictMono Real.tanh := by
  intro x y hxy
  rw [Real.tanh_eq_sinh_div_cosh, Real.tanh_eq_sinh_div_cosh,
    div_lt_div_iff₀ (Real.cosh_pos x) (Real.cosh_pos y)]
  have h : 0 < Real.sinh (y - x) := Real.sinh_pos_iff.mpr (sub_pos.mpr hxy)
  rw [Real.sinh_sub] at h
  ring_nf at h ⊢
  linarith

theorem tanh_mem_Ioo (x : ℝ) : -1 < Real.tanh x ∧ Real.tanh x < 1 := by
  rw [Real.tanh_eq_sinh_div_cosh]
  constructor
  · rw [lt_div_iff₀ (Real.cosh_pos x)]
    have h := Real.sinh_lt_cosh (-x)
    rw [Real.sinh_neg, Real.cosh_neg] at h
    linarith
  · rw [div_lt_one (Real.cosh_pos x)]
    exact Real.sinh_lt_cosh x

/-- Embeds `normalize_satellite_score` in `main.py`: `math.tanh(delta / 30)`. -/
noncomputable def normalize_satellite_score (delta : ℝ) : ℝ :=
  Real.tanh (delta / 30)

/-- Embeds `SignalAnalyzer._normalize_satellite_score` in `services/analysis.py`:
`scale = 50.0`, then `math.tanh(signal.activity_delta_pct / scale)`. -/
noncomputable def analyzer_normalize_satellite_score (activity_delta_pct : ℝ) : ℝ :=
  let scale : ℝ := 50.0
  Real.tanh (activity_delta_pct / scale)

/-- The `SCALE_FACTOR` class constant of `SatelliteSignal` in
`models/signals.py`. -/
noncomputable def SCALE_FACTOR : ℝ := 50.0

/-- Embeds `SatelliteSignal._normalize` in `models/signals.py`:
`math.tanh(delta_pct / self.SCALE_FACTOR)`. -/
noncomputable def satellite_signal_normalize (delta_pct : ℝ) : ℝ :=
  Real.tanh (delta_pct / SCALE_FACTOR)

/-- C8 counterexample: the `main.py` variant `normalize_satellite_score`
does not compute `tanh(delta/50)`: at `delta = 30` it returns `tanh(1)`
while `tanh(30/50) = tanh(3/5)` is strictly smaller, `tanh` being strictly
monotone. -/
theorem normalize_scale_counterexample :
    normalize_satellite_score 30 ≠ Real.tanh (30 / 50) := by
  unfold normalize_satellite_score
  have h : Real.tanh ((30 : ℝ) / 50) < Real.tanh ((30 : ℝ) / 30) :=
    tanh_strictMono (by norm_num)
  exact h.ne'

/-- C8 (amended): the analysis-service normalizer and the satellite-signal
model normalizer compute `tanh(delta/50)` with the fixed scale constant
50, and map every delta into `[-1, 1]`; the `main.py` variant instead uses
scale constant 30, computing `tanh(delta/30)` (also bounded). -/
theorem satellite_normalizer_scales :
    (∀ d : ℝ, analyzer_normalize_satellite_score d = Real.tanh (d / 50) ∧
      -1 ≤ analyzer_normalize_satellite_score d ∧
      analyzer_normalize_satellite_score d ≤ 1) ∧
    (∀ d : ℝ, satellite_signal_normalize d = Real.tanh (d / 50) ∧
      -1 ≤ satellite_signal_normalize d ∧ satellite_signal_normalize d ≤ 1) ∧
    (∀ d : ℝ, normalize_satellite_score d = Real.tanh (d / 30) ∧
      -1 ≤ normalize_satellite_score d ∧ normalize_satellite_score d ≤ 1) := by
  refine ⟨fun d => ⟨?_, ?_, ?_⟩, fun d => ⟨?_, ?_, ?_⟩, fun d => ⟨?_, ?_, ?_⟩⟩
  · norm_num [analyzer_normalize_satellite_score]
  · exact le_of_lt (tanh_mem_Ioo _).1
  · exact le_of_lt (tanh_mem_Ioo _).2
  · norm_num [satellite_signal_normalize, SCALE_FACTOR]
  · exact le_of_lt (tanh_mem_Ioo _).1
  · exact le_of_lt (tanh_mem_Ioo _).2
  · norm_num [normalize_satellite_score]
  · exact le_of_lt (tanh_mem_Ioo _).1
  · exact le_of_lt (tanh_mem_Ioo _).2

/-- Clamping `max(lo, min(hi, x))`, the idiom used throughout `engine.py`. -/
def clamp (lo hi x : ℚ) : ℚ := max lo (min hi x)

theorem le_clamp (lo hi x : ℚ) : lo ≤ clamp lo hi x :=
  le_max_left lo _

theorem clamp_le (lo hi x : ℚ) (h : lo ≤ hi) : clamp lo hi x ≤ hi :=
  max_le h (min_le_left hi x)

/-- Python `int(x)` float-to-int conversion: truncation toward zero. -/
def pyTrunc (q : ℚ) : ℤ := if 0 ≤ q then ⌊q⌋ else ⌈q⌉

/-- Weekday `date.weekday()` of a date modelled as a day number: 0 = Monday …
6 = Sunday, with the day-number epoch anchored on a Monday. -/
def weekday (d : ℤ) : ℤ := d.emod 7

/-- Raw satellite signal data (`SatelliteRaw` in `engine.py`). -/
structure SatelliteRaw where
  proxy_type : String
  activity_delta_pct : ℚ
  baseline_window_days : ℤ
  anomaly_strength : ℚ
  confidence : ℚ
  night_light_delta_pct : ℚ
  ndvi_delta_pct : ℚ

/-- Raw news signal data (`NewsRaw` in `engine.py`).  The
`top_headlines` field is text generated by `headlines.py` with no feedback
into any numeric field, and is elided from the embedding. -/
structure NewsRaw where
  sentiment_score : ℚ
  hype_intensity : ℚ
  headline_volume : ℤ
  duplicate_ratio : ℚ
  pump_lexicon_rate : ℚ
  source_diversity : ℚ
  confidence : ℚ

/-- The per-day PRNG draws consumed by `generate_day`, in program order.
`gauss(0, sigma)` call sites receive `sigma * z` for the oracle value `z`;
`random()` sites receive a value in `[0, 1)`; `randint(-20, 20)` is the
volume jitter.  The further draws consumed by the headline generator
produce text only and are elided. -/
structure DayNoise where
  sat_z : ℚ
  night_light_z : ℚ
  ndvi_z : ℚ
  sat_conf_z : ℚ
  news_z : ℚ
  spike_u : ℚ
  volume_jitter : ℤ
  duplicate_u : ℚ
  pump_u : ℚ
  diversity_z : ℚ
  news_conf_z : ℚ

/-- Embeds `RegionSimulator._get_active_regime`: first regime active on the day. -/
def get_active_regime (regimes : List Regime) (day : ℤ) : Option Regime :=
  regimes.find? (fun r => r.is_active day)

/-- Embeds `RegionSimulator._regime_satellite_effect` in `engine.py`.  The
`MEAN_REVERSION` arm reads `self._sat_state`, which at the call site in
`_generate_satellite` is the state already updated by this day's AR(1)
step; it is passed here as `sat_state`. -/
def regime_satellite_effect (regime : Option Regime) (progress : ℚ)
    (sat_state : ℚ) : ℚ :=
  match regime with
  | none => 0
  | some r =>
    let intensity := r.intensity
    match r.type with
    | .HYPE_PUMP => -0.15 * intensity
    | .SUPPLY_SHOCK =>
      if progress < 0.3 then -0.6 * intensity * (1 - progress / 0.3)
      else
        let recovery := (progress - 0.3) / 0.7;
        -0.6 * intensity * (1 - recovery * 0.7)
    | .PANIC_SELL => 0.1 * intensity
    | .REAL_GROWTH => 0.35 * intensity
    | .MEAN_REVERSION => -sat_state * 0.3 * progress * intensity

/-- Embeds `RegionSimulator._regime_news_effect` in `engine.py`: returns
`(sentiment modifier, hype boost)`.  As above, `news_state` is the
already-updated `self._news_state`. -/
def regime_news_effect (regime : Option Regime) (progress : ℚ)
    (news_state : ℚ) : ℚ × ℚ :=
  match regime with
  | none => (0, 0)
  | some r =>
    let intensity := r.intensity
    match r.type with
    | .HYPE_PUMP => (0.5 * intensity, 40 * intensity)
    | .SUPPLY_SHOCK =>
      if progress < 0.25 then (-0.1 * intensity, 10 * intensity)
      else
        let catch_up := min 1 ((progress - 0.25) / 0.5)
        (-0.45 * intensity * catch_up, 30 * intensity * catch_up)
    | .PANIC_SELL => (-0.55 * intensity, 25 * intensity)
    | .REAL_GROWTH => (0.25 * intensity, 5 * intensity)
    | .MEAN_REVERSION => (-news_state * 0.4 * progress * intensity, -10 * intensity)

/-- Embeds `RegionSimulator._generate_satellite` in `engine.py`: returns the
clamped score, the raw record and the updated `self._sat_state`. -/
def generate_satellite (config : RegionConfig) (regimes : List Regime)
    (day : ℤ) (day_date : ℤ) (sat_state : ℚ) (nz : DayNoise) :
    ℚ × SatelliteRaw × ℚ :=
  let weekend_mult := if 5 ≤ weekday day_date then config.sat_weekend_effect else 1
  let noise := config.sat_volatility * nz.sat_z
  let sat_state' :=
    config.sat_trend_persistence * sat_state +
    (1 - config.sat_trend_persistence) * config.sat_baseline +
    noise
  let regime := get_active_regime regimes day
  let regime_effect :=
    regime_satellite_effect regime
      (match regime with | some r => r.progress day | none => 0) sat_state'
  let raw_score := (sat_state' + regime_effect) * weekend_mult
  let score := clamp (-1) 1 raw_score
  let activity_delta := score * 60
  let night_light_delta := score * 40 + 5 * nz.night_light_z
  let ndvi_delta := -score * 20 + 3 * nz.ndvi_z
  let trend_clarity := |score| / 1
  let volatility_penalty := min 0.3 (|noise| / config.sat_volatility * 0.15)
  let confidence0 := 0.6 + 0.35 * trend_clarity - volatility_penalty
  let confidence := clamp 0.3 0.95 (confidence0 + 0.05 * nz.sat_conf_z)
  let anomaly := min 1 (|score - config.sat_baseline| / 0.5)
  (score,
   { proxy_type := config.proxy_type
     activity_delta_pct := activity_delta
     baseline_window_days := 30
     anomaly_strength := anomaly
     confidence := confidence
     night_light_delta_pct := night_light_delta
     ndvi_delta_pct := ndvi_delta },
   sat_state')

/-- Embeds `RegionSimulator._generate_news` in `engine.py`: returns the
diversity-adjusted score, the raw record and the updated
`self._news_state`.  (The `sat_score` parameter of the Python method is
unused in its body.) -/
def generate_news (config : RegionConfig) (regimes : List Regime)
    (day : ℤ) (news_state : ℚ) (nz : DayNoise) : ℚ × NewsRaw × ℚ :=
  let noise := 0.12 * nz.news_z
  let news_state' := 0.7 * news_state + 0.3 * config.news_sentiment_bias + noise
  let regime := get_active_regime regimes day
  let eff :=
    regime_news_effect regime
      (match regime with | some r => r.progress day | none => 0) news_state'
  let sentiment_mod := eff.1
  let hype_boost := eff.2
  let raw_sentiment := news_state' + sentiment_mod
  let sentiment := clamp (-1) 1 raw_sentiment
  let volume_mult := 1 + hype_boost / 100
  let spike : ℚ := if nz.spike_u < 0.1 then 1.5 else 1
  let volume0 := pyTrunc ((config.news_volume_baseline : ℚ) * volume_mult * spike)
  let volume := max 10 (min 300 (volume0 + nz.volume_jitter))
  let base_hype := config.news_hype_tendency * 40
  let duplicate_ratio0 :=
    0.1 + config.news_hype_tendency * 0.3 + nz.duplicate_u * 0.2
  let pump_lexicon0 := 0.05 + max 0 sentiment * 0.3 + nz.pump_u * 0.1
  let hype_pump_boost : ℚ × ℚ :=
    match regime with
    | some r =>
      if r.type = RegimeType.HYPE_PUMP then (0.2 * r.intensity, 0.25 * r.intensity)
      else (0, 0)
    | none => (0, 0)
  let duplicate_ratio := min 0.8 (duplicate_ratio0 + hype_pump_boost.1)
  let pump_lexicon := min 0.6 (pump_lexicon0 + hype_pump_boost.2)
  let hype_intensity :=
    clamp 0 100
      (base_hype + hype_boost + duplicate_ratio * 30 + pump_lexicon * 20 +
        ((volume : ℚ) / (config.news_volume_baseline : ℚ) - 1) * 15)
  let diversity_drop : ℚ :=
    match regime with
    | some r => if r.type = RegimeType.HYPE_PUMP then 0.2 * r.intensity else 0
    | none => 0
  let diversity :=
    clamp 0.2 0.95
      (config.news_diversity_baseline - diversity_drop + 0.05 * nz.diversity_z)
  let diversity_factor := 0.5 + 0.5 * diversity
  let adjusted_score := sentiment * diversity_factor
  let volume_factor := min 1 ((volume : ℚ) / 100)
  let confidence :=
    clamp 0.3 0.95
      (0.4 + 0.3 * volume_factor + 0.25 * diversity + 0.05 * nz.news_conf_z)
  (adjusted_score,
   { sentiment_score := adjusted_score
     hype_intensity := hype_intensity
     headline_volume := volume
     duplicate_ratio := duplicate_ratio
     pump_lexicon_rate := pump_lexicon
     source_diversity := diversity
     confidence := confidence },
   news_state')

/-- Complete simulation output for a single day (`SimulationDay`). -/
structure SimulationDay where
  date : ℤ
  day_offset : ℕ
  satellite_score : ℚ
  news_score : ℚ
  divergence_score : ℚ
  satellite_raw : SatelliteRaw
  news_raw : NewsRaw
  active_regime : Option Regime

/-- Embeds `RegionSimulator.generate_day` in `engine.py`: one day's generation,
returning the day record and the updated pair of mutable states. -/
def generate_day (config : RegionConfig) (regimes : List Regime)
    (base_date : ℤ) (sat_state news_state : ℚ) (day_offset : ℕ)
    (nz : DayNoise) : SimulationDay × ℚ × ℚ :=
  let day_date := base_date - (29 - (day_offset : ℤ))
  let sat := generate_satellite config regimes day_offset day_date sat_state nz
  let news := generate_news config regimes day_offset news_state nz
  let divergence :=
    compute_divergence_sim sat.1 news.1 sat.2.1.confidence news.2.1.confidence
      news.2.1.hype_intensity
  ({ date := day_date
     day_offset := day_offset
     satellite_score := sat.1
     news_score := news.1
     divergence_score := divergence
     satellite_raw := sat.2.1
     news_raw := news.2.1
     active_regime := get_active_regime regimes day_offset },
   sat.2.2, news.2.2)

/-- The simulator object (`RegionSimulator`): immutable identity fields
plus the mutable per-run state `sat_state` / `news_state` (the PRNG
position is represented by the day index into the seed-derived noise
stream, which `generate_series` restarts at 0). -/
structure Simulator where
  region_id : String
  config : RegionConfig
  base_date : ℤ
  seed : ℤ
  regimes : List Regime
  sat_state : ℚ
  news_state : ℚ

/-- Generation of days `d, d+1, …` for `fuel` days, threading the two
mutable states (the list comprehension in `generate_series`). -/
def run_days (config : RegionConfig) (regimes : List Regime) (base_date : ℤ)
    (stream : ℕ → DayNoise) :
    ℕ → ℕ → ℚ → ℚ → List SimulationDay × ℚ × ℚ
  | _, 0, sat_state, news_state => ([], sat_state, news_state)
  | d, fuel + 1, sat_state, news_state =>
    let step := generate_day config regimes base_date sat_state news_state d
      (stream d)
    let rest := run_days config regimes base_date stream (d + 1) fuel
      step.2.1 step.2.2
    (step.1 :: rest.1, rest.2)

/-- Embeds `RegionSimulator.generate_series` in `engine.py`: reset the PRNG to
`random.Random(self.seed)` (the noise stream is re-read from index 0 of
the seed's stream) and the mutable states to the profile baselines, then
generate `n_days` days.  `noise` maps a seed to its per-day draw stream
and models the seeded Mersenne Twister. -/
def generate_series (noise : ℤ → ℕ → DayNoise) (sim : Simulator)
    (n_days : ℕ) : List SimulationDay × Simulator :=
  let out := run_days sim.config sim.regimes sim.base_date (noise sim.seed)
    0 n_days sim.config.sat_baseline sim.config.news_sentiment_bias
  (out.1, { sim with sat_state := out.2.1, news_state := out.2.2 })

theorem compute_divergence_sim_bounds (s n c₁ c₂ h : ℚ)
    (hc₁ : 0 ≤ c₁) (hc₂ : 0 ≤ c₂) (hh : 0 ≤ h) :
    0 ≤ compute_divergence_sim s n c₁ c₂ h ∧
    compute_divergence_sim s n c₁ c₂ h ≤ 100 := by
  unfold compute_divergence_sim
  constructor
  · apply le_min (by norm_num)
    apply mul_nonneg _ (by norm_num)
    apply mul_nonneg _ (by linarith)
    apply mul_nonneg (by positivity) (by linarith)
  · exact min_le_left _ _

theorem adjusted_score_bounds (s f : ℚ) (hs₁ : -1 ≤ s) (hs₂ : s ≤ 1)
    (hf₁ : 0 ≤ f) (hf₂ : f ≤ 1) : -1 ≤ s * f ∧ s * f ≤ 1 := by
  constructor <;> nlinarith

theorem generate_satellite_bounds (config : RegionConfig)
    (regimes : List Regime) (day day_date : ℤ) (sat_state : ℚ)
    (nz : DayNoise) :
    -1 ≤ (generate_satellite config regimes day day_date sat_state nz).1 ∧
    (generate_satellite config regimes day day_date sat_state nz).1 ≤ 1 ∧
    0.3 ≤ (generate_satellite config regimes day day_date sat_state nz).2.1.confidence ∧
    (generate_satellite config regimes day day_date sat_state nz).2.1.confidence ≤ 0.95 := by
  simp only [generate_satellite]
  exact ⟨le_clamp _ _ _, clamp_le _ _ _ (by norm_num),
    le_clamp _ _ _, clamp_le _ _ _ (by norm_num)⟩

theorem generate_news_bounds (config : RegionConfig) (regimes : List Regime)
    (day : ℤ) (news_state : ℚ) (nz : DayNoise) :
    -1 ≤ (generate_news config regimes day news_state nz).1 ∧
    (generate_news config regimes day news_state nz).1 ≤ 1 ∧
    0.3 ≤ (generate_news config regimes day news_state nz).2.1.confidence ∧
    (generate_news config regimes day news_state nz).2.1.confidence ≤ 0.95 ∧
    0 ≤ (generate_news config regimes day news_state nz).2.1.hype_intensity ∧
    (generate_news config regimes day news_state nz).2.1.hype_intensity ≤ 100 := by
  simp only [generate_news]
  refine ⟨?_, ?_, le_clamp _ _ _, clamp_le _ _ _ (by norm_num),
    le_clamp _ _ _, clamp_le _ _ _ (by norm_num)⟩
  · refine (adjusted_score_bounds _ _ (le_clamp _ _ _) (clamp_le _ _ _ (by norm_num))
      ?_ ?_).1
    · have := le_clamp 0.2 0.95
        (config.news_diversity_baseline -
          (match get_active_regime regimes day with
           | some r => if r.type = RegimeType.HYPE_PUMP then 0.2 * r.intensity else 0
           | none => 0) + 0.05 * nz.diversity_z)
      linarith
    · have := clamp_le 0.2 0.95
        (config.news_diversity_baseline -
          (match get_active_regime regimes day with
           | some r => if r.type = RegimeType.HYPE_PUMP then 0.2 * r.intensity else 0
           | none => 0) + 0.05 * nz.diversity_z) (by norm_num)
      linarith
  · refine (adjusted_score_bounds _ _ (le_clamp _ _ _) (clamp_le _ _ _ (by norm_num))
      ?_ ?_).2
    · have := le_clamp 0.2 0.95
        (config.news_diversity_baseline -
          (match get_active_regime regimes day with
           | some r => if r.type = RegimeType.HYPE_PUMP then 0.2 * r.intensity else 0
           | none => 0) + 0.05 * nz.diversity_z)
      linarith
    · have := clamp_le 0.2 0.95
        (config.news_diversity_baseline -
          (match get_active_regime regimes day with
           | some r => if r.type = RegimeType.HYPE_PUMP then 0.2 * r.intensity else 0
           | none => 0) + 0.05 * nz.diversity_z) (by norm_num)
      linarith

/-- The bound predicate of C1 on one day record. -/
def day_in_bounds (day : SimulationDay) : Prop :=
  -1 ≤ day.satellite_score ∧ day.satellite_score ≤ 1 ∧
  -1 ≤ day.news_score ∧ day.news_score ≤ 1 ∧
  0 ≤ day.divergence_score ∧ day.divergence_score ≤ 100

theorem generate_day_in_bounds (config : RegionConfig)
    (regimes : List Regime) (base_date : ℤ) (sat_state news_state : ℚ)
    (day_offset : ℕ) (nz : DayNoise) :
    day_in_bounds (generate_day config regimes base_date sat_state news_state
      day_offset nz).1 := by
  have hs := generate_satellite_bounds config regimes day_offset
    (base_date - (29 - (day_offset : ℤ))) sat_state nz
  have hn := generate_news_bounds config regimes day_offset news_state nz
  have hd := compute_divergence_sim_bounds
    (generate_satellite config regimes day_offset
      (base_date - (29 - (day_offset : ℤ))) sat_state nz).1
    (generate_news config regimes day_offset news_state nz).1
    (generate_satellite config regimes day_offset
      (base_date - (29 - (day_offset : ℤ))) sat_state nz).2.1.confidence
    (generate_news config regimes day_offset news_state nz).2.1.confidence
    (generate_news config regimes day_offset news_state nz).2.1.hype_intensity
    (by linarith [hs.2.2.1]) (by linarith [hn.2.2.1]) hn.2.2.2.2.1
  exact ⟨hs.1, hs.2.1, hn.1, hn.2.1, hd.1, hd.2⟩

theorem run_days_in_bounds (config : RegionConfig) (regimes : List Regime)
    (base_date : ℤ) (stream : ℕ → DayNoise) :
    ∀ (fuel d : ℕ) (sat_state news_state : ℚ),
      (run_days config regimes base_date stream d fuel sat_state
        news_state).1.Forall day_in_bounds := by
  intro fuel
  induction fuel with
  | zero => intro d s n; simp [run_days]
  | succ f ih =>
    intro d s n
    rw [run_days, List.forall_cons]
    exact ⟨generate_day_in_bounds config regimes base_date s n d (stream d),
      ih (d + 1) _ _⟩

/-- C1: every day record of a full-window run has its satellite and news
scores in `[-1, 1]` and its divergence in `[0, 100]`, for every simulator
(hence every profile, however extreme its parameters) and every noise
stream whatsoever. -/
theorem series_scores_bounded (noise : ℤ → ℕ → DayNoise) (sim : Simulator)
    (n_days : ℕ) :
    (generate_series noise sim n_days).1.Forall day_in_bounds :=
  run_days_in_bounds sim.config sim.regimes sim.base_date (noise sim.seed)
    n_days 0 sim.config.sat_baseline sim.config.news_sentiment_bias

/-- C2: running the full-window generation twice is bit-identical —
generating a series mutates only the simulator's `SimulationState`
(`_sat_state` / `_news_state`), and `generate_series` resets that state
and the PRNG stream before generating, so a second run on the simulator
returned by the first produces the identical day list.  More generally,
any simulator that agrees on config, anchor date, seed and regimes
produces the identical output, whatever its mutable state. -/
theorem generate_series_repeatable (noise : ℤ → ℕ → DayNoise)
    (sim : Simulator) (n_days : ℕ) :
    (generate_series noise ((generate_series noise sim n_days).2) n_days).1 =
      (generate_series noise sim n_days).1 ∧
    ∀ sim' : Simulator, sim'.config = sim.config →
      sim'.base_date = sim.base_date → sim'.seed = sim.seed →
      sim'.regimes = sim.regimes →
      (generate_series noise sim' n_days).1 =
        (generate_series noise sim n_days).1 := by
  constructor
  · rfl
  · intro sim' hc hb hs hr
    simp only [generate_series, hc, hb, hs, hr]

/-- An alert of the `main.py` API layer (`AlertResponse`); the message
strings keep their static text, numeric interpolation elided. -/
structure AlertResponse where
  level : String
  message : String
  category : String
deriving DecidableEq

/-- Embeds `generate_alerts` in `main.py`.  Conditions and order transcribed from
the source; only `headline_volume` and `hype_intensity` of the raw news
record are read, so they are passed directly. -/
def generate_alerts (sat_score news_score : ℚ) (market_score : Option ℚ)
    (divergence : ℚ) (headline_volume : ℤ) (hype_intensity : ℚ) :
    List AlertResponse :=
  let alerts : List AlertResponse := []
  let alerts := if headline_volume < 5 then
      alerts ++ [⟨"info", "Limited news coverage for this region", "data"⟩]
    else alerts
  let alerts :=
    if 75 < divergence then
      if 0.2 < news_score ∧ sat_score < -0.1 then
        alerts ++ [⟨"critical",
          "HYPE DIVERGENCE: Bullish narrative not supported by physical activity",
          "divergence"⟩]
      else if news_score < -0.2 ∧ 0.1 < sat_score then
        alerts ++ [⟨"critical",
          "PANIC DIVERGENCE: Bearish panic contradicted by physical activity",
          "divergence"⟩]
      else
        alerts ++ [⟨"warning", "Significant signal divergence detected",
          "divergence"⟩]
    else if 50 < divergence then
      alerts ++ [⟨"warning",
        "Moderate divergence between physical and narrative signals",
        "divergence"⟩]
    else alerts
  let alerts := if 70 < hype_intensity then
      alerts ++ [⟨"warning", "High narrative hype detected", "hype"⟩]
    else alerts
  let alerts :=
    match market_score with
    | some m =>
      if |sat_score - m| < 0.3 ∧ ¬(|news_score - m| < 0.3) ∧ 50 < hype_intensity
      then alerts ++ [⟨"warning",
        "Market aligns with physical reality, diverges from narrative",
        "market"⟩]
      else alerts
    | none => alerts
  if alerts = [] then
    [⟨"ok", "Signals aligned - monitoring active", "status"⟩]
  else alerts

/-- An alert of the signal-model / analysis-service layers (`Alert`). -/
structure Alert where
  level : String
  title : String
  message : String

/-- The divergence thresholds of `DivergenceAnalyzer` in
`models/signals.py`. -/
def THRESHOLD_LOW : ℚ := 30

/-- Medium divergence threshold of `DivergenceAnalyzer`. -/
def THRESHOLD_MEDIUM : ℚ := 55

/-- High divergence threshold of `DivergenceAnalyzer`. -/
def THRESHOLD_HIGH : ℚ := 75

/-- Embeds `DivergenceAnalyzer._generate_alerts` in `models/signals.py` (message
strings keep their static text, numeric interpolation elided). -/
def divergence_analyzer_alerts (divergence sat_score news_score hype : ℚ) :
    List Alert :=
  let sat_bullish := 0.1 < sat_score
  let sat_bearish := sat_score < -0.1
  let news_bullish := 0.1 < news_score
  let news_bearish := news_score < -0.1
  let alerts : List Alert :=
    if THRESHOLD_HIGH ≤ divergence then
      if news_bullish ∧ sat_bearish then
        [⟨"critical", "Hype Divergence Detected",
          "Bullish narrative contradicts physical slowdown. High risk of narrative-driven mispricing."⟩]
      else if news_bearish ∧ sat_bullish then
        [⟨"critical", "Panic Divergence Detected",
          "Bearish narrative contradicts physical expansion. Potential overreaction."⟩]
      else
        [⟨"warning", "Extreme Magnitude Mismatch",
          "Signals point same direction but diverge significantly. Investigate data quality."⟩]
    else if THRESHOLD_MEDIUM ≤ divergence then
      [⟨"warning", "Elevated Divergence",
        "Moderate disagreement between physical and narrative signals. Monitor for trend confirmation."⟩]
    else if THRESHOLD_LOW ≤ divergence then
      [⟨"info", "Minor Divergence",
        "Small gap between satellite and news signals. Within normal range."⟩]
    else
      [⟨"info", "Signals Aligned",
        "Physical activity and narrative are in agreement. No divergence detected."⟩]
  if 70 ≤ hype ∧ THRESHOLD_LOW ≤ divergence then
    alerts ++ [⟨"warning", "High Hype Intensity",
      "News hype suggests potential coordinated narrative or viral spread."⟩]
  else alerts

/-- Divergence thresholds of `SignalAnalyzer` in `services/analysis.py`. -/
def THRESHOLD_ELEVATED : ℚ := 35

/-- Critical divergence threshold of `SignalAnalyzer`. -/
def THRESHOLD_CRITICAL : ℚ := 60

/-- Embeds `SignalAnalyzer._generate_alerts` in `services/analysis.py` (message
strings keep their static text, numeric interpolation elided). -/
def signal_analyzer_alerts (sat_score news_score divergence hype : ℚ)
    (sat_source : String) : List Alert :=
  let alerts : List Alert :=
    if sat_source = "UNAVAILABLE" then
      [⟨"warning", "Satellite Data Unavailable",
        "Earth Engine data could not be retrieved. Analysis based on news signals only."⟩]
    else []
  let alerts :=
    if THRESHOLD_CRITICAL ≤ divergence then
      if 0.15 < news_score ∧ sat_score < -0.15 then
        alerts ++ [⟨"critical", "Hype Divergence",
          "Bullish narrative contradicts physical contraction. Potential mispricing."⟩]
      else if news_score < -0.15 ∧ 0.15 < sat_score then
        alerts ++ [⟨"critical", "Panic Divergence",
          "Bearish narrative contradicts physical expansion. Potential overreaction."⟩]
      else
        alerts ++ [⟨"critical", "High Divergence",
          "Significant disagreement between physical and narrative signals."⟩]
    else if THRESHOLD_ELEVATED ≤ divergence then
      alerts ++ [⟨"warning", "Elevated Divergence",
        "Moderate disagreement between signals. Worth monitoring for trend confirmation."⟩]
    else
      alerts ++ [⟨"info", "Signals Aligned",
        "Physical activity and market narrative are telling a consistent story."⟩]
  if 60 ≤ hype then
    alerts ++ [⟨"warning", "High Hype Detected",
      "Potential coordinated narrative or viral spread."⟩]
  else alerts

theorem ite_empty_ne_nil (l : List AlertResponse) (a : AlertResponse) :
    (if l = [] then [a] else l) ≠ [] := by
  split
  · simp
  · assumption

/-- C9: none of the three alert generators ever returns an empty list:
`main.py` appends an ok/monitoring status alert when nothing else fired,
and the two service-layer generators always emit exactly one alert from
their exhaustive divergence classification chain. -/
theorem alerts_never_empty :
    (∀ (s n : ℚ) (m : Option ℚ) (d : ℚ) (v : ℤ) (h : ℚ),
      generate_alerts s n m d v h ≠ []) ∧
    (∀ d s n h : ℚ, divergence_analyzer_alerts d s n h ≠ []) ∧
    (∀ (s n d h : ℚ) (src : String), signal_analyzer_alerts s n d h src ≠ []) := by
  refine ⟨fun s n m d v h => ?_, fun d s n h => ?_, fun s n d h src => ?_⟩
  · simp only [generate_alerts]
    exact ite_empty_ne_nil _ _
  · simp only [divergence_analyzer_alerts]
    split_ifs <;> simp
  · simp only [signal_analyzer_alerts]
    split_ifs <;> simp

/-- Embeds `self.base_date.isoformat()` of the day-number date model: a canonical
string rendering of the date (its exact format does not matter to any
claim, only that it is a function of the date). -/
def iso_of (d : ℤ) : String := toString d

/-- The seed string `f"{region_id}:{self.base_date.isoformat()}"` built in
`RegionSimulator.__init__`. -/
def seed_string (region_id : String) (base_date : ℤ) : String :=
  region_id ++ ":" ++ iso_of base_date

/-- Embeds `self.seed = hash(seed_str) & 0xFFFFFFFF` in `RegionSimulator.__init__`.
CPython's builtin `hash` on `str` is salted per interpreter process
(`PYTHONHASHSEED`), so it is modelled as a parameter `str_hash` supplied
by the ambient process rather than as a fixed function of the string.
`& 0xFFFFFFFF` on a possibly negative Python int is `emod 2^32`. -/
def py_seed (str_hash : String → ℤ) (region_id : String) (base_date : ℤ) : ℤ :=
  (str_hash (seed_string region_id base_date)).emod (2 ^ 32)

/-- C5: the PRNG seed is NOT a deterministic function of
`(region_id, anchor_date)` alone — it factors through the ambient
process's string hash, and two processes whose salted hashes differ on the
seed string derive different seeds for identical inputs.  This contradicts
the engine's documented "full reproducibility": the code's `hash(...)` is
the per-process salted CPython string hash. -/
theorem seed_depends_on_process_hash :
    ∃ hash₁ hash₂ : String → ℤ,
      py_seed hash₁ "shanghai" 0 ≠ py_seed hash₂ "shanghai" 0 := by
  refine ⟨fun _ => 0, fun _ => 1, ?_⟩
  simp only [py_seed]
  decide

/-- Embeds `RegionSimulator.__init__`: fetch the config (with silent fallback),
derive the seed from the process hash of the seed string, pre-generate the
regimes from the seeded PRNG (whose draws `dr` models), and set the
mutable state to the profile baselines. -/
def mk_simulator (str_hash : String → ℤ) (dr : RegimeDraws)
    (region_id : String) (base_date : ℤ) : Simulator :=
  let config := get_config region_id
  { region_id := region_id
    config := config
    base_date := base_date
    seed := py_seed str_hash region_id base_date
    regimes := generate_regimes dr
    sat_state := config.sat_baseline
    news_state := config.news_sentiment_bias }

/-- C10: for a region id absent from the configuration table, `get_config`
silently returns the shanghai configuration, and the constructed simulator
is exactly the shanghai-parameterized simulator except for its stored
`region_id` and the seed derived from it. -/
theorem unknown_region_falls_back (region_id : String)
    (h : region_id ∉ REGION_CONFIGS.map Prod.fst) :
    get_config region_id = shanghai_config ∧
    ∀ (str_hash : String → ℤ) (dr : RegimeDraws) (base_date : ℤ),
      mk_simulator str_hash dr region_id base_date =
        { mk_simulator str_hash dr "shanghai" base_date with
            region_id := region_id
            seed := py_seed str_hash region_id base_date } := by
  have h' : region_id ≠ "shanghai" ∧ region_id ≠ "shenzhen" ∧
      region_id ≠ "suez" ∧ region_id ≠ "la_port" ∧
      region_id ≠ "rotterdam" := by
    simp [REGION_CONFIGS] at h
    tauto
  have e1 : (region_id == "shanghai") = false := beq_eq_false_iff_ne.mpr h'.1
  have e2 : (region_id == "shenzhen") = false := beq_eq_false_iff_ne.mpr h'.2.1
  have e3 : (region_id == "suez") = false := beq_eq_false_iff_ne.mpr h'.2.2.1
  have e4 : (region_id == "la_port") = false := beq_eq_false_iff_ne.mpr h'.2.2.2.1
  have e5 : (region_id == "rotterdam") = false :=
    beq_eq_false_iff_ne.mpr h'.2.2.2.2
  have h1 : get_config region_id = shanghai_config := by
    simp [get_config, REGION_CONFIGS, List.lookup, e1, e2, e3, e4, e5]
  refine ⟨h1, fun str_hash dr base_date => ?_⟩
  have h2 : get_config "shanghai" = shanghai_config := rfl
  simp [mk_simulator, h1, h2]

/-- A draw oracle for the C10 witness. -/
def plain_draws : RegimeDraws where
  n_regimes_u := 0
  type_draw := fun _ => .HYPE_PUMP
  dur_draw := fun _ => 5
  start_draw := fun _ _ => 5
  intensity_u := fun _ => 0

/-- C10 witness: the fallback theorem applied to the concrete unknown
region id "atlantis", with the non-membership hypothesis discharged. -/
theorem unknown_region_falls_back_witness :
    "atlantis" ∉ REGION_CONFIGS.map Prod.fst ∧
    get_config "atlantis" = shanghai_config ∧
    mk_simulator (fun _ => 0) plain_draws "atlantis" 0 =
      { mk_simulator (fun _ => 0) plain_draws "shanghai" 0 with
          region_id := "atlantis"
          seed := py_seed (fun _ => 0) "atlantis" 0 } := by
  have hmem : "atlantis" ∉ REGION_CONFIGS.map Prod.fst := by decide
  exact ⟨hmem, (unknown_region_falls_back "atlantis" hmem).1,
    (unknown_region_falls_back "atlantis" hmem).2 (fun _ => 0) plain_draws 0⟩
